import Mathlib

/-!
Shallow embedding of the trading-system sources (scoring engine, signal
collector, risk manager, rule-based structurer fallback, position manager,
wait buffer / revaluator, validation) and theorems about the specified
properties.  Numeric values are embedded as rationals; Python dictionary
fields that may be absent or null are embedded as `Option` fields, with the
`.get`-defaults applied at each read site exactly as in the source.
-/

namespace Trading

/-- Python `round` uses banker's rounding (round half to even). -/
def roundHalfEven (q : ℚ) : ℤ :=
  let f : ℤ := ⌊q⌋
  let frac : ℚ := q - f
  if frac < 1/2 then f
  else if 1/2 < frac then f + 1
  else if f % 2 = 0 then f else f + 1

/-- Python `round(x, n)` for non-negative `n`. -/
def pyRound (n : ℕ) (q : ℚ) : ℚ :=
  let p : ℚ := (10 : ℚ) ^ n
  (roundHalfEven (q * p) : ℚ) / p

/-- Python `abs`, written out so that it evaluates by kernel reduction. -/
def ratAbs (q : ℚ) : ℚ := if q < 0 then -q else q

/-! ## scoring_engine.py : data model

`structured_data` as read by `calculate_score` and its helpers.  A missing
sub-dictionary is the record whose fields are all `none`. -/

structure RegimeData where
  classification : Option String
  deriving DecidableEq

structure PriceStructure where
  sma20_distance_pct : Option ℚ
  deriving DecidableEq

structure ZoneInteraction where
  zone_touch : Option Bool
  zone_direction : Option String
  fvg_touch : Option Bool
  fvg_direction : Option String
  liquidity_sweep : Option Bool
  sweep_direction : Option String
  deriving DecidableEq

structure Momentum where
  trend_aligned : Option Bool
  rsi_value : Option ℚ
  rsi_zone : Option String
  deriving DecidableEq

structure SignalQuality where
  bar_close_confirmed : Option Bool
  session : Option String
  tv_confidence : Option ℚ
  pattern_similarity : Option ℚ
  duplicate_warning : Option Bool
  deriving DecidableEq

structure DataCompleteness where
  fields_missing : List String
  deriving DecidableEq

structure StructuredData where
  regime : RegimeData
  price_structure : PriceStructure
  zone_interaction : ZoneInteraction
  momentum : Momentum
  signal_quality : SignalQuality
  data_completeness : DataCompleteness
  deriving DecidableEq

/-- `SCORING_CONFIG`: named weights and the two thresholds.  The entries read
through `.get` with a numeric fallback are resolved fields here, since the
claims quantify over every weight assignment. -/
structure ScoringConfig where
  approve_threshold : ℚ
  wait_threshold : ℚ
  regime_trend_base : ℚ
  regime_breakout_base : ℚ
  regime_range_base : ℚ
  zone_touch_aligned_with_trend : ℚ
  zone_touch_counter_trend : ℚ
  fvg_touch_aligned_with_trend : ℚ
  fvg_touch_counter_trend : ℚ
  liquidity_sweep : ℚ
  sweep_plus_zone : ℚ
  trend_aligned : ℚ
  rsi_confirmation : ℚ
  rsi_divergence : ℚ
  counter_trend_no_sweep : ℚ
  bar_close_confirmed : ℚ
  session_london_ny : ℚ
  session_tokyo : ℚ
  session_off_hours : ℚ
  tv_confidence_high : ℚ
  tv_confidence_low : ℚ
  pattern_similarity_high : ℚ
  pattern_similarity_low : ℚ
  deriving DecidableEq

structure ScoreResult where
  decision : String
  score : ℚ
  score_breakdown : List (String × ℚ)
  reject_reasons : List String
  wait_condition : Option String
  deriving DecidableEq

/-! ## scoring_engine.py : functions -/

/-- `_is_direction_aligned` -/
def is_direction_aligned (zone_direction : Option String) (signal_direction : String) : Bool :=
  match zone_direction with
  | none => false
  | some d =>
    (d = "demand" ∧ signal_direction = "buy") ∨
    (d = "supply" ∧ signal_direction = "sell") ∨
    (d = "bullish" ∧ signal_direction = "buy") ∨
    (d = "bearish" ∧ signal_direction = "sell")

/-- `_is_sweep_aligned` -/
def is_sweep_aligned (sweep_direction : Option String) (signal_direction : String) : Bool :=
  match sweep_direction with
  | none => false
  | some d =>
    (d = "sell_side" ∧ signal_direction = "buy") ∨
    (d = "buy_side" ∧ signal_direction = "sell")

/-- `_check_instant_reject` -/
def check_instant_reject (sd : StructuredData) (_signal_direction : String)
    (q_trend_available : Bool) : List String :=
  let fm := sd.data_completeness.fields_missing
  let missing_critical :=
    fm.any (fun f => f = "rsi_value" ∨ f = "adx_value" ∨ f = "atr_expanding")
  let r1 : List String :=
    if 3 ≤ fm.length ∨ missing_critical then
      ["重要データ欠損: " ++ toString fm]
    else []
  let r2 : List String :=
    if sd.regime.classification = some "range" then
      match sd.price_structure.sma20_distance_pct with
      | some d =>
        if ratAbs d ≤ 3/10 then
          if ¬ sd.zone_interaction.zone_touch.getD false ∧
             ¬ sd.zone_interaction.fvg_touch.getD false then
            ["レンジ中央での順張り（SMA20乖離±0.3%以内、ゾーン/FVGタッチなし）"]
          else []
        else []
      | none => []
    else []
  let r3 : List String :=
    if q_trend_available then
      if ¬ sd.momentum.trend_aligned.getD true ∧
         ¬ sd.signal_quality.bar_close_confirmed.getD true then
        ["Gate2: Q-trend不一致かつbar_close未確認"]
      else []
    else []
  r1 ++ r2 ++ r3

/-- `_calculate_regime_score` -/
def calc_regime_score (cfg : ScoringConfig) (regime : RegimeData)
    (_signal_direction : String) : ℚ × String :=
  match regime.classification.getD "range" with
  | "trend" => (cfg.regime_trend_base, "regime_trend_base")
  | "breakout" => (cfg.regime_breakout_base, "regime_breakout_base")
  | "range" => (cfg.regime_range_base, "regime_range_base")
  | _ => (0, "")

/-- `_calculate_structure_score` -/
def calc_structure_score (cfg : ScoringConfig) (zi : ZoneInteraction)
    (signal_direction : String) (trend_aligned : Bool) : ℚ × List (String × ℚ) :=
  let zone_touch := zi.zone_touch.getD false
  let fvg_touch := zi.fvg_touch.getD false
  let liq_sweep := zi.liquidity_sweep.getD false
  let (s1, b1) : ℚ × List (String × ℚ) :=
    if zone_touch ∧ is_direction_aligned zi.zone_direction signal_direction then
      if trend_aligned then
        (cfg.zone_touch_aligned_with_trend,
         [("zone_touch_aligned_with_trend", cfg.zone_touch_aligned_with_trend)])
      else
        (cfg.zone_touch_counter_trend,
         [("zone_touch_counter_trend", cfg.zone_touch_counter_trend)])
    else (0, [])
  let (s2, b2) : ℚ × List (String × ℚ) :=
    if fvg_touch ∧ is_direction_aligned zi.fvg_direction signal_direction then
      if trend_aligned then
        (cfg.fvg_touch_aligned_with_trend,
         [("fvg_touch_aligned_with_trend", cfg.fvg_touch_aligned_with_trend)])
      else
        (cfg.fvg_touch_counter_trend,
         [("fvg_touch_counter_trend", cfg.fvg_touch_counter_trend)])
    else (0, [])
  let (s3, b3) : ℚ × List (String × ℚ) :=
    if liq_sweep ∧ is_sweep_aligned zi.sweep_direction signal_direction then
      let base := (cfg.liquidity_sweep, [("liquidity_sweep", cfg.liquidity_sweep)])
      if zone_touch ∧ is_direction_aligned zi.zone_direction signal_direction then
        (base.1 + cfg.sweep_plus_zone,
         base.2 ++ [("sweep_plus_zone", cfg.sweep_plus_zone)])
      else base
    else (0, [])
  (s1 + s2 + s3, b1 ++ b2 ++ b3)

/-- `_calculate_momentum_score` -/
def calc_momentum_score (cfg : ScoringConfig) (m : Momentum)
    (signal_direction : String) (has_sweep : Bool) : ℚ × List (String × ℚ) :=
  let trend_aligned := m.trend_aligned.getD false
  let (s1, b1) : ℚ × List (String × ℚ) :=
    if trend_aligned then (cfg.trend_aligned, [("trend_aligned", cfg.trend_aligned)])
    else (0, [])
  let rsi_zone := m.rsi_zone.getD "neutral"
  let (s2, b2) : ℚ × List (String × ℚ) :=
    match m.rsi_value with
    | none => (0, [])
    | some _ =>
      if signal_direction = "buy" ∧ rsi_zone = "oversold" then
        (cfg.rsi_confirmation, [("rsi_confirmation", cfg.rsi_confirmation)])
      else if signal_direction = "sell" ∧ rsi_zone = "overbought" then
        (cfg.rsi_confirmation, [("rsi_confirmation", cfg.rsi_confirmation)])
      else if signal_direction = "buy" ∧ rsi_zone = "overbought" then
        (cfg.rsi_divergence, [("rsi_divergence", cfg.rsi_divergence)])
      else if signal_direction = "sell" ∧ rsi_zone = "oversold" then
        (cfg.rsi_divergence, [("rsi_divergence", cfg.rsi_divergence)])
      else (0, [])
  let (s3, b3) : ℚ × List (String × ℚ) :=
    if ¬ trend_aligned ∧ m.trend_aligned ≠ none ∧ ¬ has_sweep then
      (cfg.counter_trend_no_sweep,
       [("counter_trend_no_sweep", cfg.counter_trend_no_sweep)])
    else (0, [])
  (s1 + s2 + s3, b1 ++ b2 ++ b3)

/-- `_calculate_signal_quality_score` -/
def calc_signal_quality_score (cfg : ScoringConfig) (sq : SignalQuality) :
    ℚ × List (String × ℚ) :=
  let (s1, b1) : ℚ × List (String × ℚ) :=
    if sq.bar_close_confirmed.getD false then
      (cfg.bar_close_confirmed, [("bar_close_confirmed", cfg.bar_close_confirmed)])
    else (0, [])
  let session := sq.session.getD ""
  let (s2, b2) : ℚ × List (String × ℚ) :=
    if session = "London_NY" then
      (cfg.session_london_ny, [("session_london_ny", cfg.session_london_ny)])
    else if session = "Tokyo" then
      if cfg.session_tokyo ≠ 0 then
        (cfg.session_tokyo, [("session_tokyo", cfg.session_tokyo)])
      else (0, [])
    else if session = "off_hours" then
      (cfg.session_off_hours, [("session_off_hours", cfg.session_off_hours)])
    else (0, [])
  let (s3, b3) : ℚ × List (String × ℚ) :=
    match sq.tv_confidence with
    | none => (0, [])
    | some tv =>
      if 7/10 < tv then
        (cfg.tv_confidence_high, [("tv_confidence_high", cfg.tv_confidence_high)])
      else if tv < 3/10 then
        (cfg.tv_confidence_low, [("tv_confidence_low", cfg.tv_confidence_low)])
      else (0, [])
  let (s4, b4) : ℚ × List (String × ℚ) :=
    match sq.pattern_similarity with
    | none => (0, [])
    | some ps =>
      if 7/10 < ps then
        (cfg.pattern_similarity_high,
         [("pattern_similarity_high", cfg.pattern_similarity_high)])
      else if ps < 3/10 then
        (cfg.pattern_similarity_low,
         [("pattern_similarity_low", cfg.pattern_similarity_low)])
      else (0, [])
  let (s5, b5) : ℚ × List (String × ℚ) :=
    if sq.duplicate_warning.getD false then
      (-15/100, [("duplicate_warning", -15/100)])
    else (0, [])
  (s1 + s2 + s3 + s4 + s5, b1 ++ b2 ++ b3 ++ b4 ++ b5)

/-- `_determine_wait_condition` -/
def determine_wait_condition (sd : StructuredData)
    (_breakdown : List (String × ℚ)) : String :=
  if ¬ sd.zone_interaction.zone_touch.getD false ∧
     ¬ sd.zone_interaction.fvg_touch.getD false then
    "structure_needed: ゾーンまたはFVGタッチを待つ"
  else if ¬ sd.signal_quality.bar_close_confirmed.getD false then
    "next_bar: バークローズ確認を待つ"
  else
    "cooldown: 追加確認を待つ"

/-- `_build_reject_reasons`; the source formats each negative entry as a
string, here abstracted to its factor key. -/
def build_reject_reasons (breakdown : List (String × ℚ)) : List String :=
  let negative_items := breakdown.filter (fun p => p.2 < 0)
  if negative_items.isEmpty then ["スコア不足（閾値未達）"]
  else negative_items.map (fun p => p.1)

/-- `calculate_score` -/
def calculate_score (cfg : ScoringConfig) (sd : StructuredData)
    (signal_direction : String) (q_trend_available : Bool) : ScoreResult :=
  let reject_reasons := check_instant_reject sd signal_direction q_trend_available
  if reject_reasons = [] then
    let (regime_score, regime_detail) := calc_regime_score cfg sd.regime signal_direction
    let b0 : List (String × ℚ) :=
      if regime_detail ≠ "" then [(regime_detail, regime_score)] else []
    let trend_aligned := sd.momentum.trend_aligned.getD true
    let (structure_score, b1) :=
      calc_structure_score cfg sd.zone_interaction signal_direction trend_aligned
    let has_sweep := sd.zone_interaction.liquidity_sweep.getD false
    let (momentum_score, b2) := calc_momentum_score cfg sd.momentum signal_direction has_sweep
    let (quality_score, b3) := calc_signal_quality_score cfg sd.signal_quality
    let total := pyRound 4 (regime_score + structure_score + momentum_score + quality_score)
    let breakdown := b0 ++ b1 ++ b2 ++ b3
    if cfg.approve_threshold ≤ total then
      { decision := "approve", score := total, score_breakdown := breakdown,
        reject_reasons := [], wait_condition := none }
    else if cfg.wait_threshold ≤ total then
      { decision := "wait", score := total, score_breakdown := breakdown,
        reject_reasons := [],
        wait_condition := some (determine_wait_condition sd breakdown) }
    else
      { decision := "reject", score := total, score_breakdown := breakdown,
        reject_reasons := build_reject_reasons breakdown, wait_condition := none }
  else
    { decision := "reject", score := -999, score_breakdown := [("instant_reject", -999)],
      reject_reasons := reject_reasons, wait_condition := none }

/-! ## signal_collector.py

`SignalCollector._flush` failure path: the flushed `batch` is concatenated in
front of whatever has been received since (`self._buffer`), and the merged
list is truncated with `merged[:MAX_BUFFER_SIZE]` when it exceeds the cap. -/

def signal_buffer_size : ℕ := 50

def max_buffer_size : ℕ := signal_buffer_size * 4

def requeue_after_failure (maxBuf : ℕ) (batch buffer : List α) : List α :=
  let merged := batch ++ buffer
  if maxBuf < merged.length then merged.take maxBuf else merged

/-! ## risk_manager.py -/

def max_consecutive_loss : ℕ := 3

def consecutive_loss_reset_hours : ℚ := 24

def max_daily_loss_pct : ℚ := -5

/-- One row of `trade_results` as used by `check_consecutive_losses`:
`closed_at` is the parsed close time in epoch seconds, `none` when
`_parse_dt` fails. -/
structure TradeRow where
  outcome : String
  closed_at : Option ℚ
  deriving DecidableEq

/-- `datetime.min` (0001-01-01 00:00, taken as UTC) in epoch seconds: the
value substituted by the time-window filter when a close time is missing. -/
def datetime_min_epoch : ℚ := -62135596800

/-- The `reset_hours` filter: keep rows with `(parsed or datetime.min) ≥ cutoff`. -/
def reset_filter (cutoff : ℚ) (rows : List TradeRow) : List TradeRow :=
  rows.filter (fun r => cutoff ≤ r.closed_at.getD datetime_min_epoch)

/-- The merge test of the grouping loop: the scanned row joins the current
group (represented by its first row `last`) iff both outcomes are `sl_hit`,
both close times parsed, and the times differ by more than 0 and at most
10 seconds. -/
def same_group (last row : TradeRow) : Bool :=
  decide (row.outcome = "sl_hit") && decide (last.outcome = "sl_hit") &&
  match last.closed_at, row.closed_at with
  | some lc, some rc => decide (0 < ratAbs (rc - lc) ∧ ratAbs (rc - lc) ≤ 10)
  | _, _ => false

def group_rows_aux : TradeRow → List TradeRow → List TradeRow
  | _, [] => []
  | last, r :: rest =>
    if same_group last r then group_rows_aux last rest
    else r :: group_rows_aux r rest

/-- The grouping pass of `check_consecutive_losses` (rows scanned
newest-first, as returned by `ORDER BY id DESC`). -/
def group_rows : List TradeRow → List TradeRow
  | [] => []
  | r :: rest => r :: group_rows_aux r rest

def leading_sl_count : List TradeRow → ℕ
  | [] => 0
  | r :: rest => if r.outcome = "sl_hit" then leading_sl_count rest + 1 else 0

structure ConsecutiveResult where
  blocked : Bool
  consecutive_count : ℕ
  reason : String
  reset_hours : ℚ
  deriving DecidableEq

/-- `check_consecutive_losses`.  The DB query is modelled as an `Except`
value (the caught exception branch), rows are the query result (newest
first); the blocked reason string is fixed since `n = 3`. -/
def check_consecutive_losses (db : Except String (List TradeRow)) (now : ℚ) :
    ConsecutiveResult :=
  let n := max_consecutive_loss
  let reset_hours := consecutive_loss_reset_hours
  match db with
  | .error _ => ⟨false, 0, "db_error", reset_hours⟩
  | .ok rows =>
    if rows = [] then ⟨false, 0, "insufficient_data", reset_hours⟩
    else
      let rows := if 0 < reset_hours then
          reset_filter (now - reset_hours * 3600) rows
        else rows
      if rows = [] then ⟨false, 0, "reset_by_time", reset_hours⟩
      else
        let grouped := group_rows rows
        let recent := grouped.take n
        if recent.length < n then
          ⟨false, (recent.filter (fun g => g.outcome = "sl_hit")).length,
           "insufficient_data", reset_hours⟩
        else if recent.all (fun g => g.outcome = "sl_hit") then
          ⟨true, n, "直近 3 件が連続SL被弾 → 取引停止", reset_hours⟩
        else
          ⟨false, leading_sl_count grouped, "ok", reset_hours⟩

structure DailyLossResult where
  blocked : Bool
  daily_pnl_usd : ℚ
  reason : String
  deriving DecidableEq

/-- `check_daily_loss_limit`; the DB query-and-parse is an `Except` value,
the balance a parameter (`_get_balance`); the blocked reason string is
abstracted to a fixed label. -/
def check_daily_loss_limit (db : Except String ℚ) (balance : ℚ) : DailyLossResult :=
  match db with
  | .error _ => ⟨false, 0, "db_error"⟩
  | .ok daily_pnl =>
    let limit_usd := balance * (max_daily_loss_pct / 100)
    if daily_pnl < limit_usd then ⟨true, daily_pnl, "当日損失が上限を超過"⟩
    else ⟨false, daily_pnl, "ok"⟩

/-! ## llm_structurer.py : regime portion of `_fallback_structurize` -/

structure FallbackRegime where
  classification : String
  adx_value : Option ℚ
  adx_rising : Option Bool
  atr_expanding : Bool
  squeeze_detected : Bool
  deriving DecidableEq

/-- The regime block of `_fallback_structurize`: `adx_value` and `atr_15m`
are the parsed indicator values (`_safe_float`), `atr_percentile` the value
of `atr_percentile_15m` read with default 50. -/
def fallback_regime (adx_value : Option ℚ) (atr_15m : Option ℚ)
    (atr_percentile : ℚ) : FallbackRegime :=
  let adx_rising : Option Bool := adx_value.map (fun a => decide (20 < a))
  let atr_expanding : Bool :=
    match atr_15m with
    | some _ => decide (70 < atr_percentile)
    | none => false
  let squeeze_detected : Bool :=
    match atr_15m with
    | some _ => decide (atr_percentile < 20)
    | none => false
  let classification : String :=
    match adx_value with
    | some a =>
      if 25 < a ∧ atr_expanding then "breakout"
      else if 20 < a then "trend"
      else "range"
    | none => "range"
  ⟨classification, adx_value, adx_rising, atr_expanding, squeeze_detected⟩

/-- C5's statement: the classification of the fallback regime record
against the combination of its own `adx_value`, `adx_rising` and
`atr_expanding` fields. -/
def regime_classification_spec (adx_value atr_15m : Option ℚ)
    (atr_percentile : ℚ) : Prop :=
  let r := fallback_regime adx_value atr_15m atr_percentile
  let breakout_cond : Prop :=
    (∃ a, r.adx_value = some a ∧ 25 < a) ∧ r.adx_rising = some true ∧
      r.atr_expanding = true
  let trend_cond : Prop := ∃ a, r.adx_value = some a ∧ 20 < a
  (r.classification = "breakout" ↔ breakout_cond) ∧
  (r.classification = "trend" ↔ ¬ breakout_cond ∧ trend_cond) ∧
  (r.classification = "range" ↔ ¬ breakout_cond ∧ ¬ trend_cond)

/-! ## position_manager.py -/

def partial_close_ratio : ℚ := 1/2

def trailing_step_atr_mult : ℚ := 3/2

structure ManagedPosition where
  ticket : ℕ
  direction : String
  entry_price : ℚ
  lot_size : ℚ
  sl_price : ℚ
  atr_pips : ℚ
  tp_price : ℚ
  be_applied : Bool
  partial_closed : Bool
  trailing_active : Bool
  max_price : ℚ
  remaining_lots : ℚ
  partial_pnl : ℚ
  deriving DecidableEq

/-- The trailing-stop candidate of `_update_trailing`. -/
def trail_new_sl (pos : ManagedPosition) : ℚ :=
  if pos.direction = "buy" then
    pyRound 3 (pos.max_price - pos.atr_pips * trailing_step_atr_mult)
  else
    pyRound 3 (pos.max_price + pos.atr_pips * trailing_step_atr_mult)

/-- `PositionManager._update_trailing`; `update_ok` is the broker's answer
to the `_update_sl` order (on failure the stored position is unchanged). -/
def update_trailing (pos : ManagedPosition) (update_ok : Bool) : ManagedPosition :=
  if pos.direction = "buy" ∧ trail_new_sl pos ≤ pos.sl_price then pos
  else if pos.direction = "sell" ∧ pos.sl_price ≤ trail_new_sl pos then pos
  else if update_ok then { pos with sl_price := trail_new_sl pos } else pos

/-- STEP 3 of `PositionManager._manage`: the trailing update runs only when
the position is in the PARTIAL_CLOSED state. -/
def manage_trailing_step (pos : ManagedPosition) (update_ok : Bool) : ManagedPosition :=
  if pos.partial_closed then update_trailing pos update_ok else pos

structure PartialCloseOutcome where
  pos : ManagedPosition
  order_sent : Bool
  deriving DecidableEq

/-- `PositionManager._partial_close`; `volume_min` is the broker's
`symbol_info` min-lot (`none` when `symbol_info` is unavailable, falling
back to 0.01), `order_ok` the broker's answer to the close order.
`order_sent` records whether `order_send` was reached. -/
def close_volume (pos : ManagedPosition) : ℚ :=
  pyRound 2 (pos.lot_size * partial_close_ratio)

def partial_close (pos : ManagedPosition) (volume_min : Option ℚ)
    (current_price : ℚ) (order_ok : Bool) : PartialCloseOutcome :=
  if close_volume pos < volume_min.getD (1/100) then
    ⟨{ pos with partial_closed := true, trailing_active := true }, false⟩
  else if order_ok then
    ⟨{ pos with
        partial_pnl :=
          if pos.direction = "buy" then
            (current_price - pos.entry_price) * close_volume pos * 100
          else (pos.entry_price - current_price) * close_volume pos * 100,
        partial_closed := true, trailing_active := true,
        remaining_lots := pyRound 2 (pos.lot_size - close_volume pos) }, true⟩
  else ⟨pos, true⟩

/-! ## wait_buffer.py / revaluator.py -/

def max_reeval_count : ℕ := 3

structure WaitItem where
  item_id : String
  reeval_count : ℕ
  status : String
  wait_scope : String
  wait_condition : String
  deriving DecidableEq

/-- The wait buffer's `_items` dictionary. -/
def WaitBuffer : Type := String → Option WaitItem

/-- `WaitBuffer.increment_reeval`: the locked read-modify-write; returns the
new buffer and the value the method returns. -/
def increment_reeval (buf : WaitBuffer) (key : String) : WaitBuffer × ℕ :=
  match buf key with
  | some item =>
    (fun j => if j = key then
        some { item with reeval_count := item.reeval_count + 1 }
      else buf j,
     item.reeval_count + 1)
  | none => (buf, 0)

/-- `WaitBuffer.resolve_item`. -/
def resolve_item (buf : WaitBuffer) (key status : String) : WaitBuffer :=
  match buf key with
  | some item => fun j => if j = key then some { item with status := status } else buf j
  | none => buf

/-- `WaitBuffer.should_reject_by_reeval`. -/
def should_reject_by_reeval (item : WaitItem) : Bool :=
  max_reeval_count ≤ item.reeval_count

inductive ReevalAction where
  | rejected_without_rescore
  | rescored
  deriving DecidableEq

/-- The head of `Revaluator._reeval_item`: when the re-evaluation cap is
reached the item is resolved `rejected` and the method returns before any
context rebuild or rescoring; otherwise the counter is bumped and the
rescoring path runs. -/
def reeval_item_gate (buf : WaitBuffer) (item : WaitItem) : WaitBuffer × ReevalAction :=
  if should_reject_by_reeval item then
    (resolve_item buf item.item_id "rejected", .rejected_without_rescore)
  else
    ((increment_reeval buf item.item_id).1, .rescored)

/-! ## validation.py -/

/-- A raw webhook payload as read by `validate_and_normalize`.  Each numeric
field is `Option (Option ℚ)`: outer layer = key present in the payload,
inner layer = `float(...)` succeeds. -/
structure RawSignal where
  signal_type : Option String
  event : Option String
  price : Option (Option ℚ)
  tf : Option (Option ℤ)
  direction : Option String
  side : Option String
  action : Option String
  symbol : Option String
  source : Option String
  strength : Option String
  comment : Option String
  confirmed : Option String
  confidence : Option (Option ℚ)
  win_rate : Option (Option ℚ)
  pattern_similarity : Option (Option ℚ)
  avg_distance : Option (Option ℚ)
  deriving DecidableEq

/-- The normalized signal (`received_at`, a wall-clock stamp, is omitted). -/
structure NormalizedSignal where
  symbol : String
  price : ℚ
  tf : Option ℤ
  direction : String
  signal_type : String
  event : String
  source : String
  strength : String
  comment : String
  confirmed : String
  tv_confidence : Option ℚ
  tv_win_rate : Option ℚ
  pattern_similarity : Option ℚ
  avg_distance : Option ℚ
  deriving DecidableEq

def py_strip_lower (s : String) : String := s.trim.toLower

/-- Python `a or b` over an optional string (both `None` and `""` fall
through). -/
def py_or_str (a : Option String) (b : String) : String :=
  match a with
  | some s => if s = "" then b else s
  | none => b

def valid_signal_types : List String := ["entry_trigger", "structure"]

def valid_events : List String :=
  ["prediction_signal", "zone_retrace_touch", "new_zone_confirmed",
   "fvg_touch", "liquidity_sweep"]

def valid_directions : List String := ["buy", "sell"]

/-- `normalize_symbol` with the GOLD alias table. -/
def normalize_symbol (raw : String) : String :=
  if raw = "GOLD" ∨ raw = "XAUUSD" ∨ raw = "gold" ∨ raw = "xauusd" then "GOLD"
  else raw.toUpper

/-- The `[0, 1]`-bounded normalization shared by `tv_confidence` and
`pattern_similarity`: absent key, failed parse, or out-of-range value all
become null. -/
def norm_unit_interval (field : Option (Option ℚ)) : Option ℚ :=
  match field with
  | none => none
  | some none => none
  | some (some v) => if 0 ≤ v ∧ v ≤ 1 then some v else none

/-- The `win_rate` normalization: percentage range check, then `round(x/100, 3)`. -/
def norm_win_rate (field : Option (Option ℚ)) : Option ℚ :=
  match field with
  | none => none
  | some none => none
  | some (some w) => if 0 ≤ w ∧ w ≤ 100 then some (pyRound 3 (w / 100)) else none

/-- `validate_and_normalize`. -/
def validate_and_normalize (raw : RawSignal) : Option NormalizedSignal :=
  if raw.signal_type = none ∨ raw.event = none ∨ raw.price = none then none
  else
    let signal_type := py_strip_lower (raw.signal_type.getD "")
    if signal_type ∉ valid_signal_types then none
    else
      let event := py_strip_lower (raw.event.getD "")
      if event ∉ valid_events then none
      else
        let direction := py_strip_lower
          (py_or_str raw.direction (py_or_str raw.side (py_or_str raw.action "")))
        if signal_type = "entry_trigger" ∧ direction ∉ valid_directions then none
        else
          match raw.price.getD none with
          | none => none
          | some price =>
            some { symbol := normalize_symbol (raw.symbol.getD "GOLD"),
                   price := price,
                   tf := raw.tf.getD none,
                   direction := direction,
                   signal_type := signal_type,
                   event := event,
                   source := raw.source.getD "",
                   strength := raw.strength.getD "",
                   comment := raw.comment.getD "",
                   confirmed := raw.confirmed.getD "",
                   tv_confidence := norm_unit_interval raw.confidence,
                   tv_win_rate := norm_win_rate raw.win_rate,
                   pattern_similarity := norm_unit_interval raw.pattern_similarity,
                   avg_distance := raw.avg_distance.getD none }

/-- C10's statement: on every accepted payload the two normalized
similarity fields are `null` or in `[0, 1]`, an out-of-range parsed value
becomes `null` rather than a clamped bound, and these two fields never
decide acceptance. -/
def accepted_confidence_spec (raw : RawSignal) : Prop :=
  (∀ norm, validate_and_normalize raw = some norm →
    (norm.tv_confidence = none ∨ ∃ v, norm.tv_confidence = some v ∧ 0 ≤ v ∧ v ≤ 1) ∧
    (norm.pattern_similarity = none ∨
      ∃ v, norm.pattern_similarity = some v ∧ 0 ≤ v ∧ v ≤ 1) ∧
    (∀ v, raw.confidence = some (some v) → ¬ (0 ≤ v ∧ v ≤ 1) →
      norm.tv_confidence = none) ∧
    (∀ v, raw.pattern_similarity = some (some v) → ¬ (0 ≤ v ∧ v ≤ 1) →
      norm.pattern_similarity = none)) ∧
  (∀ c c', (validate_and_normalize
      { raw with confidence := c, pattern_similarity := c' }).isSome
    = (validate_and_normalize raw).isSome)

/-! ## Sample inputs used by witnesses -/

/-- A structured-data record with every optional field absent. -/
def sdEmpty : StructuredData :=
  { regime := { classification := none },
    price_structure := { sma20_distance_pct := none },
    zone_interaction := { zone_touch := none, zone_direction := none,
                          fvg_touch := none, fvg_direction := none,
                          liquidity_sweep := none, sweep_direction := none },
    momentum := { trend_aligned := none, rsi_value := none, rsi_zone := none },
    signal_quality := { bar_close_confirmed := none, session := none,
                        tv_confidence := none, pattern_similarity := none,
                        duplicate_warning := none },
    data_completeness := { fields_missing := [] } }

/-- A record that trips Gate 2: aligned fields explicitly `false`. -/
def sdGate2 : StructuredData :=
  { sdEmpty with
    momentum := { sdEmpty.momentum with trend_aligned := some false },
    signal_quality := { sdEmpty.signal_quality with bar_close_confirmed := some false } }

/-- A weight assignment: thresholds 1 / 0, every weight 0. -/
def cfg0 : ScoringConfig :=
  { approve_threshold := 1, wait_threshold := 0,
    regime_trend_base := 0, regime_breakout_base := 0, regime_range_base := 0,
    zone_touch_aligned_with_trend := 0, zone_touch_counter_trend := 0,
    fvg_touch_aligned_with_trend := 0, fvg_touch_counter_trend := 0,
    liquidity_sweep := 0, sweep_plus_zone := 0, trend_aligned := 0,
    rsi_confirmation := 0, rsi_divergence := 0, counter_trend_no_sweep := 0,
    bar_close_confirmed := 0, session_london_ny := 0, session_tokyo := 0,
    session_off_hours := 0, tv_confidence_high := 0, tv_confidence_low := 0,
    pattern_similarity_high := 0, pattern_similarity_low := 0 }

/-- The threshold decision property of one `calculate_score` result, stated
over the result record and the fields the wait condition reads. -/
def threshold_decision_spec (cfg : ScoringConfig) (sd : StructuredData)
    (dir : String) (qta : Bool) : Prop :=
  let r := calculate_score cfg sd dir qta
  (r.decision = "approve" ↔ cfg.approve_threshold ≤ r.score) ∧
  (r.decision = "wait" ↔ cfg.wait_threshold ≤ r.score ∧ r.score < cfg.approve_threshold) ∧
  (r.decision = "reject" ↔ r.score < cfg.approve_threshold ∧ r.score < cfg.wait_threshold) ∧
  (r.decision = "wait" →
    r.wait_condition = some (
      if ¬ sd.zone_interaction.zone_touch.getD false ∧
         ¬ sd.zone_interaction.fvg_touch.getD false then
        "structure_needed: ゾーンまたはFVGタッチを待つ"
      else if ¬ sd.signal_quality.bar_close_confirmed.getD false then
        "next_bar: バークローズ確認を待つ"
      else "cooldown: 追加確認を待つ")) ∧
  (r.decision ≠ "wait" → r.wait_condition = none)

/-- Three stop-loss rows closed at exactly the same instant. -/
def rows3same : List TradeRow :=
  [⟨"sl_hit", some 1000⟩, ⟨"sl_hit", some 1000⟩, ⟨"sl_hit", some 1000⟩]

/-- A long position in the PARTIAL_CLOSED state. -/
def posBuy : ManagedPosition :=
  { ticket := 1, direction := "buy", entry_price := 2000, lot_size := 2/100,
    sl_price := 1990, atr_pips := 8, tp_price := 2024, be_applied := true,
    partial_closed := true, trailing_active := true, max_price := 2016,
    remaining_lots := 2/100, partial_pnl := 0 }

/-- Scenario S6: a 0.02-lot position whose half volume is below min-lot. -/
def posS6 : ManagedPosition :=
  { ticket := 2, direction := "buy", entry_price := 2000, lot_size := 2/100,
    sl_price := 1984, atr_pips := 8, tp_price := 2024, be_applied := true,
    partial_closed := false, trailing_active := false, max_price := 2016,
    remaining_lots := 2/100, partial_pnl := 0 }

/-- A wait item that has reached the re-evaluation cap. -/
def itemCapped : WaitItem :=
  { item_id := "a", reeval_count := 3, status := "waiting",
    wait_scope := "cooldown", wait_condition := "" }

/-- A one-item wait buffer holding `itemCapped`. -/
def bufOne : WaitBuffer := fun j => if j = "a" then some itemCapped else none

/-! # Theorems -/

/-! ## C1 : Gate-2 instant reject -/

/-- C1: for every structured-data record and every direction, if Q-trend data
is available and the record has `trend_aligned = false` and
`bar_close_confirmed = false`, then `calculate_score` returns decision
`reject`, regardless of every other field and of the score-config weights. -/
theorem C1_gate2_instant_reject (cfg : ScoringConfig) (sd : StructuredData)
    (dir : String)
    (hta : sd.momentum.trend_aligned = some false)
    (hbc : sd.signal_quality.bar_close_confirmed = some false) :
    (calculate_score cfg sd dir true).decision = "reject" := by
  have hne : check_instant_reject sd dir true ≠ [] := by
    unfold check_instant_reject
    simp [hta, hbc]
  unfold calculate_score
  simp [hne]

/-- Witness for C1 at a concrete record and weight assignment. -/
theorem C1_witness :
    sdGate2.momentum.trend_aligned = some false ∧
    sdGate2.signal_quality.bar_close_confirmed = some false ∧
    (calculate_score cfg0 sdGate2 "buy" true).decision = "reject" :=
  ⟨rfl, rfl, C1_gate2_instant_reject cfg0 sdGate2 "buy" rfl rfl⟩

/-! ## C2 : threshold decision once the instant-reject phase passes -/

/-- C2: for every input passing the instant-reject phase, `calculate_score`
decides by thresholds: approve iff score ≥ approve_threshold; wait iff
wait_threshold ≤ score < approve_threshold, with the wait condition
`structure_needed` when neither zone nor FVG touch holds, else `next_bar`
when bar close is unconfirmed, else `cooldown`; reject in every remaining
case. -/
theorem C2_threshold_decision (cfg : ScoringConfig) (sd : StructuredData)
    (dir : String) (qta : Bool)
    (h : check_instant_reject sd dir qta = []) :
    threshold_decision_spec cfg sd dir qta := by
  unfold threshold_decision_spec calculate_score determine_wait_condition
  rw [h]
  simp only [if_pos rfl]
  split_ifs with h1 h2 <;>
    refine ⟨?_, ?_, ?_, ?_, ?_⟩ <;>
    simp_all

/-- Witness for C2 at a concrete record (which scores 0, landing in the wait
band of `cfg0`). -/
theorem C2_witness :
    check_instant_reject sdEmpty "buy" true = [] ∧
    threshold_decision_spec cfg0 sdEmpty "buy" true :=
  ⟨rfl, C2_threshold_decision cfg0 sdEmpty "buy" true rfl⟩

/-! ## C3 : collector re-queue on callback failure -/

set_option maxRecDepth 20000 in
/-- C3: at the hard cap (4 × 50 = 200), re-queueing a 150-signal batch in
front of 60 newly received signals keeps the 200 oldest signals and drops
the 10 newest — the oldest signal (0) survives and the newest (209) is the
one discarded, although the ERROR log reports the oldest were dropped. -/
theorem C3_overflow_drops_newest :
    requeue_after_failure max_buffer_size (List.range 150) (List.range' 150 60)
      = List.range 200 ∧
    0 ∈ requeue_after_failure max_buffer_size (List.range 150) (List.range' 150 60) ∧
    209 ∉ requeue_after_failure max_buffer_size (List.range 150) (List.range' 150 60) :=
  ⟨by decide, by decide, by decide⟩

/-! ## C4 : consecutive-loss grouping -/

/-- C4 counterexample: three `sl_hit` rows whose close times pairwise differ
by 0 seconds (≤ 10 s) are counted as three separate loss events, and the
gate blocks — under the claimed grouping they would form one event and the
gate could not see three. -/
theorem C4_counterexample_zero_diff :
    (rows3same.all (fun r => r.closed_at = some 1000)) = true ∧
    (group_rows (reset_filter (1000 - 24 * 3600) rows3same)).length = 3 ∧
    (check_consecutive_losses (.ok rows3same) 1000).blocked = true := by
  refine ⟨by simp [rows3same], ?_, ?_⟩
  · norm_num [group_rows, group_rows_aux, reset_filter, rows3same, same_group,
              datetime_min_epoch, ratAbs, List.filter]
  · norm_num [check_consecutive_losses, group_rows, group_rows_aux, reset_filter,
              rows3same, same_group, datetime_min_epoch, ratAbs, List.filter,
              max_consecutive_loss, consecutive_loss_reset_hours]
    simp

/-- C4 (amended): a row merges into the current loss event iff both it and
the event's first row are `sl_hit` closed more than 0 and at most 10 seconds
apart (`same_group`); after dropping rows older than `reset_hours`, the gate
blocks exactly when at least 3 group events remain and the 3 most recent are
all `sl_hit`. -/
theorem C4_consecutive_gate (rows : List TradeRow) (now : ℚ) :
    (∀ last row : TradeRow, same_group last row = true ↔
      (row.outcome = "sl_hit" ∧ last.outcome = "sl_hit" ∧
       ∃ lc rc : ℚ, last.closed_at = some lc ∧ row.closed_at = some rc ∧
         0 < ratAbs (rc - lc) ∧ ratAbs (rc - lc) ≤ 10)) ∧
    ((check_consecutive_losses (.ok rows) now).blocked = true ↔
      (reset_filter (now - 24 * 3600) rows ≠ [] ∧
       3 ≤ (group_rows (reset_filter (now - 24 * 3600) rows)).length ∧
       ∀ g ∈ (group_rows (reset_filter (now - 24 * 3600) rows)).take 3,
         g.outcome = "sl_hit")) := by
  constructor
  · intro last row
    unfold same_group
    cases hl : last.closed_at <;> cases hr : row.closed_at <;>
      (simp [hl, hr]; try tauto)
  · unfold check_consecutive_losses
    simp only [max_consecutive_loss, consecutive_loss_reset_hours]
    by_cases h0 : rows = []
    · subst h0
      simp [reset_filter]
    · rw [if_neg h0]
      have h24 : (0 : ℚ) < 24 := by norm_num
      rw [if_pos h24]
      by_cases h1 : reset_filter (now - 24 * 3600) rows = []
      · simp [h1]
      · rw [if_neg h1]
        have hlen : ((group_rows (reset_filter (now - 24 * 3600) rows)).take 3).length
            = min 3 (group_rows (reset_filter (now - 24 * 3600) rows)).length :=
          List.length_take 3 _
        by_cases h2 : ((group_rows (reset_filter (now - 24 * 3600) rows)).take 3).length < 3
        · rw [if_pos h2]
          have hlt : (group_rows (reset_filter (now - 24 * 3600) rows)).length < 3 := by
            by_contra hge
            push_neg at hge
            rw [hlen, min_eq_left hge] at h2
            exact lt_irrefl 3 h2
          constructor
          · intro hfalse; simp at hfalse
          · rintro ⟨-, hge, -⟩; omega
        · rw [if_neg h2]
          have hge : 3 ≤ (group_rows (reset_filter (now - 24 * 3600) rows)).length :=
            le_trans (by rw [← hlen]; exact not_lt.mp h2) (min_le_right 3 _)
          by_cases h3 : ((group_rows (reset_filter (now - 24 * 3600) rows)).take 3).all
              (fun g => g.outcome = "sl_hit")
          · rw [if_pos h3]
            refine ⟨fun _ => ⟨h1, hge, fun g hg => ?_⟩, fun _ => rfl⟩
            simpa using List.all_eq_true.mp h3 g hg
          · rw [if_neg h3]
            constructor
            · intro hfalse; simp at hfalse
            · rintro ⟨-, -, hall⟩
              exact absurd (List.all_eq_true.mpr fun g hg => by simpa using hall g hg) h3

/-! ## C9 : DB failure never blocks -/

/-- C9: a failed database query inside a risk check yields `blocked = false`
with reason `db_error`, for both the daily-loss check and the
consecutive-loss check. -/
theorem C9_db_error_never_blocks (e₁ e₂ : String) (balance now : ℚ) :
    check_daily_loss_limit (.error e₁) balance
      = { blocked := false, daily_pnl_usd := 0, reason := "db_error" } ∧
    (check_consecutive_losses (.error e₂) now).blocked = false ∧
    (check_consecutive_losses (.error e₂) now).reason = "db_error" :=
  ⟨rfl, rfl, rfl⟩

/-! ## C5 : fallback regime classification -/

/-- C5: for every rule-based structurer input, the regime classification is
`breakout` iff adx > 25, `adx_rising` and `atr_expanding` all hold;
otherwise `trend` iff adx > 20; otherwise `range`. -/
theorem C5_fallback_regime_classification (adx_value atr_15m : Option ℚ)
    (atr_percentile : ℚ) :
    regime_classification_spec adx_value atr_15m atr_percentile := by
  unfold regime_classification_spec fallback_regime
  cases adx_value with
  | none => simp
  | some a =>
    cases atr_15m with
    | none =>
      by_cases h20 : 20 < a
      · by_cases h25 : 25 < a <;> simp [h20, h25]
      · have h25 : ¬ 25 < a := fun h => h20 (by linarith)
        simp [h20, h25]
    | some t =>
      by_cases h70 : 70 < atr_percentile
      · by_cases h20 : 20 < a
        · by_cases h25 : 25 < a <;> simp [h20, h25, h70]
        · have h25 : ¬ 25 < a := fun h => h20 (by linarith)
          simp [h20, h25, h70]
      · by_cases h20 : 20 < a
        · by_cases h25 : 25 < a <;> simp [h20, h25, h70]
        · have h25 : ¬ 25 < a := fun h => h20 (by linarith)
          simp [h20, h25, h70]

/-! ## C6 : trailing-stop ratchet after PARTIAL_CLOSED -/

theorem update_trailing_mono_buy (pos : ManagedPosition) (update_ok : Bool)
    (hdir : pos.direction = "buy") :
    pos.sl_price ≤ (update_trailing pos update_ok).sl_price := by
  unfold update_trailing
  by_cases h1 : pos.direction = "buy" ∧ trail_new_sl pos ≤ pos.sl_price
  · rw [if_pos h1]
  · rw [if_neg h1]
    have h2 : ¬ (pos.direction = "sell" ∧ pos.sl_price ≤ trail_new_sl pos) := by
      rintro ⟨hs, -⟩
      rw [hdir] at hs
      exact absurd hs (by decide)
    rw [if_neg h2]
    have hlt : pos.sl_price < trail_new_sl pos := by
      by_contra hle
      push_neg at hle
      exact h1 ⟨hdir, hle⟩
    cases update_ok with
    | false => simp
    | true => simpa using hlt.le

theorem update_trailing_mono_sell (pos : ManagedPosition) (update_ok : Bool)
    (hdir : pos.direction = "sell") :
    (update_trailing pos update_ok).sl_price ≤ pos.sl_price := by
  unfold update_trailing
  have h1 : ¬ (pos.direction = "buy" ∧ trail_new_sl pos ≤ pos.sl_price) := by
    rintro ⟨hb, -⟩
    rw [hdir] at hb
    exact absurd hb (by decide)
  rw [if_neg h1]
  by_cases h2 : pos.direction = "sell" ∧ pos.sl_price ≤ trail_new_sl pos
  · rw [if_pos h2]
  · rw [if_neg h2]
    have hlt : trail_new_sl pos < pos.sl_price := by
      by_contra hle
      push_neg at hle
      exact h2 ⟨hdir, hle⟩
    cases update_ok with
    | false => simp
    | true => simpa using hlt.le

/-- C6: for every position in the PARTIAL_CLOSED state, a manage tick's
trailing update leaves the stored stop loss unchanged or moves it strictly
in the favorable direction: for a buy position `sl_price` never decreases,
for a sell position it never increases. -/
theorem C6_trailing_ratchet (pos : ManagedPosition) (update_ok : Bool)
    (hpc : pos.partial_closed = true) :
    (pos.direction = "buy" →
      pos.sl_price ≤ (manage_trailing_step pos update_ok).sl_price) ∧
    (pos.direction = "sell" →
      (manage_trailing_step pos update_ok).sl_price ≤ pos.sl_price) := by
  unfold manage_trailing_step
  rw [hpc]
  exact ⟨fun hdir => by simpa using update_trailing_mono_buy pos update_ok hdir,
         fun hdir => by simpa using update_trailing_mono_sell pos update_ok hdir⟩

/-- Witness for C6 on a concrete PARTIAL_CLOSED buy position. -/
theorem C6_witness :
    posBuy.partial_closed = true ∧
    ((posBuy.direction = "buy" →
       posBuy.sl_price ≤ (manage_trailing_step posBuy true).sl_price) ∧
     (posBuy.direction = "sell" →
       (manage_trailing_step posBuy true).sl_price ≤ posBuy.sl_price)) :=
  ⟨rfl, C6_trailing_ratchet posBuy true rfl⟩

/-! ## C7 : partial close skipped below min lot -/

/-- C7: when the partial-take-profit trigger fires but the computed partial
volume is below the broker's minimum lot, no close order is sent, and the
position's `partial_closed` and `trailing_active` flags are both set so
trailing proceeds. -/
theorem C7_partial_below_min_lot (pos : ManagedPosition) (volume_min : Option ℚ)
    (current_price : ℚ) (order_ok : Bool)
    (h : close_volume pos < volume_min.getD (1/100)) :
    (partial_close pos volume_min current_price order_ok).order_sent = false ∧
    (partial_close pos volume_min current_price order_ok).pos.partial_closed = true ∧
    (partial_close pos volume_min current_price order_ok).pos.trailing_active = true := by
  unfold partial_close
  rw [if_pos h]
  exact ⟨rfl, rfl, rfl⟩

/-- Witness for C7 on scenario S6 (lot 0.02, ratio 0.5, min lot 0.02). -/
theorem C7_witness :
    close_volume posS6 < (some (2/100) : Option ℚ).getD (1/100) ∧
    (partial_close posS6 (some (2/100)) 2016 true).order_sent = false ∧
    (partial_close posS6 (some (2/100)) 2016 true).pos.partial_closed = true ∧
    (partial_close posS6 (some (2/100)) 2016 true).pos.trailing_active = true := by
  have h : close_volume posS6 < (some (2/100) : Option ℚ).getD (1/100) := by
    norm_num [close_volume, pyRound, roundHalfEven, posS6, partial_close_ratio]
  exact ⟨h, C7_partial_below_min_lot posS6 (some (2/100)) 2016 true h⟩

/-! ## C8 : re-evaluation counter and cap -/

/-- C8: `increment_reeval` is a read-modify-write adding exactly 1 to the
item's counter, every stored counter is monotone under it, and once the
counter reaches `max_reeval_count` the next re-evaluation resolves the item
`rejected` without rebuilding context or rescoring. -/
theorem C8_reeval_monotone_and_cap (buf : WaitBuffer) (item : WaitItem)
    (h : buf item.item_id = some item) :
    ((increment_reeval buf item.item_id).1 item.item_id
        = some { item with reeval_count := item.reeval_count + 1 } ∧
     (increment_reeval buf item.item_id).2 = item.reeval_count + 1) ∧
    (∀ j it it', buf j = some it →
      (increment_reeval buf item.item_id).1 j = some it' →
      it.reeval_count ≤ it'.reeval_count) ∧
    (max_reeval_count ≤ item.reeval_count →
      (reeval_item_gate buf item).2 = ReevalAction.rejected_without_rescore ∧
      (reeval_item_gate buf item).1 item.item_id
        = some { item with status := "rejected" }) := by
  refine ⟨?_, ?_, ?_⟩
  · unfold increment_reeval
    rw [h]
    exact ⟨by simp, rfl⟩
  · intro j it it' hj hj'
    unfold increment_reeval at hj'
    simp only [h] at hj'
    by_cases hjk : j = item.item_id
    · subst hjk
      have hit : it = item := by
        rw [h] at hj
        exact (Option.some_inj.mp hj).symm
      rw [if_pos rfl] at hj'
      have hit' : it' = { item with reeval_count := item.reeval_count + 1 } :=
        (Option.some_inj.mp hj').symm
      rw [hit, hit']
      exact Nat.le_succ _
    · rw [if_neg hjk] at hj'
      rw [hj] at hj'
      rw [(Option.some_inj.mp hj').symm]
  · intro hcap
    unfold reeval_item_gate should_reject_by_reeval resolve_item
    rw [if_pos (by simpa using hcap)]
    rw [h]
    exact ⟨rfl, by simp⟩

/-- Witness for C8 on a one-item buffer at the cap. -/
theorem C8_witness :
    bufOne itemCapped.item_id = some itemCapped ∧
    ((increment_reeval bufOne itemCapped.item_id).1 itemCapped.item_id
        = some { itemCapped with reeval_count := itemCapped.reeval_count + 1 } ∧
     (increment_reeval bufOne itemCapped.item_id).2 = itemCapped.reeval_count + 1) ∧
    (max_reeval_count ≤ itemCapped.reeval_count →
      (reeval_item_gate bufOne itemCapped).2 = ReevalAction.rejected_without_rescore ∧
      (reeval_item_gate bufOne itemCapped).1 itemCapped.item_id
        = some { itemCapped with status := "rejected" }) :=
  ⟨rfl, (C8_reeval_monotone_and_cap bufOne itemCapped rfl).1,
    (C8_reeval_monotone_and_cap bufOne itemCapped rfl).2.2⟩

/-! ## C10 : confidence and pattern-similarity normalization -/

theorem norm_unit_interval_range (field : Option (Option ℚ)) :
    norm_unit_interval field = none ∨
      ∃ v, norm_unit_interval field = some v ∧ 0 ≤ v ∧ v ≤ 1 := by
  rcases field with - | - | v
  · exact Or.inl rfl
  · exact Or.inl rfl
  · by_cases hv : 0 ≤ v ∧ v ≤ 1
    · refine Or.inr ⟨v, ?_, hv⟩
      simp [norm_unit_interval, hv]
    · refine Or.inl ?_
      simp [norm_unit_interval, hv]

theorem norm_unit_interval_out (field : Option (Option ℚ)) (v : ℚ)
    (hv : field = some (some v)) (hout : ¬ (0 ≤ v ∧ v ≤ 1)) :
    norm_unit_interval field = none := by
  simp [norm_unit_interval, hv, if_neg hout]

/-- C10: for every raw payload accepted by the validator, the normalized
`tv_confidence` and `pattern_similarity` are each null or within `[0, 1]`;
a parsed value outside that range becomes null (not a clamped bound) and
never causes the payload to be rejected. -/
theorem C10_confidence_pattern_range (raw : RawSignal) :
    accepted_confidence_spec raw := by
  constructor
  · intro norm hn
    simp only [validate_and_normalize] at hn
    repeat' split at hn
    all_goals try exact Option.noConfusion hn
    all_goals rw [Option.some_inj] at hn
    all_goals subst hn
    refine ⟨norm_unit_interval_range raw.confidence,
            norm_unit_interval_range raw.pattern_similarity,
            fun v hv hout => norm_unit_interval_out raw.confidence v hv hout,
            fun v hv hout => norm_unit_interval_out raw.pattern_similarity v hv hout⟩
  · intro c c'
    unfold validate_and_normalize
    simp only
    split_ifs <;> try rfl
    all_goals cases hp : raw.price.getD none <;> simp [hp]

end Trading
